import Mathlib

/-!
Shallow embedding of the `crudapp` Django application
(`src/crudproject/crudapp/{models,forms,urls,views}.py`).

The application persists a single entity `Orders` with six fields,
exposes one view that serves and accepts a creation form
(`orderFormView`, path `ofv`) and one view that lists all persisted
records (`showView`, path `sv`).  Form parsing and validation are done
by a Django `ModelForm` over the model `Orders`; the store is the
Django ORM table.  The framework pieces (field cleaning, the model
form's uniqueness check on the primary key, redirect/render responses)
are modelled here from Django's documented semantics, since the
repository contains no framework code; the views, the model's field
declarations and the URL table are translated directly from the source.
-/

deriving instance DecidableEq for Except

/-- Characters stripped by Python `str.strip()` (Django strips
`CharField`/`EmailField` input, and `int()`/`float()` ignore
surrounding whitespace). -/
def isPySpace (c : Char) : Bool :=
  c = ' ' || c = '\t' || c = '\n' || c = '\r' || c = '\x0b' || c = '\x0c'

/-- Model of Python `str.strip()`. -/
def pyStrip (s : String) : String :=
  ⟨((s.toList.dropWhile isPySpace).reverse.dropWhile isPySpace).reverse⟩

/-- Numeric value of a list of decimal digit characters. -/
def digitsVal (cs : List Char) : Nat :=
  cs.foldl (fun a c => a * 10 + (c.toNat - 48)) 0

/-- Model of Python `int(s)` on a stripped string: an optional sign
followed by a nonempty run of decimal digits (underscore separators and
other exotic syntax are not used by this application). -/
def parseIntStr (s : String) : Option Int :=
  let (sign, ds) : Int × List Char :=
    match s.toList with
    | '-' :: r => (-1, r)
    | '+' :: r => (1, r)
    | r => (1, r)
  if ds ≠ [] && ds.all Char.isDigit then some (sign * (digitsVal ds : Int))
  else none

/-- Exact value of a finite decimal literal, denoting the number
`mant * 10 ^ exp`.  The application never computes with the price — it
only stores and redisplays it — so an exact decimal representation is a
faithful model of the parsed `float`. -/
structure DecFloat where
  mant : Int
  exp : Int
deriving DecidableEq

/-- Exponent part of a Python float literal: optional sign and a
nonempty run of digits, shifting the decimal exponent of the
already-parsed mantissa. -/
def parseExpPart (mant : Int) (scale : Int) (cs : List Char) : Option DecFloat :=
  let (es, ds) : Int × List Char :=
    match cs with
    | '-' :: r => (-1, r)
    | '+' :: r => (1, r)
    | r => (1, r)
  if ds ≠ [] && ds.all Char.isDigit then
    some ⟨mant, scale + es * (digitsVal ds : Int)⟩
  else none

/-- Model of Python `float(s)` on a stripped string, restricted to
finite decimal literals: optional sign, integer part and/or fractional
part, optional exponent. -/
def parseFloatStr (s : String) : Option DecFloat :=
  let (sign, cs) : Int × List Char :=
    match s.toList with
    | '-' :: r => (-1, r)
    | '+' :: r => (1, r)
    | r => (1, r)
  let ip := cs.takeWhile Char.isDigit
  let rest := cs.dropWhile Char.isDigit
  match rest with
  | [] => if ip = [] then none else some ⟨sign * (digitsVal ip : Int), 0⟩
  | '.' :: r =>
    let fp := r.takeWhile Char.isDigit
    let r2 := r.dropWhile Char.isDigit
    if ip = [] && fp = [] then none
    else
      let mant : Int := sign * ((digitsVal ip * 10 ^ fp.length + digitsVal fp : Nat) : Int)
      let scale : Int := -(fp.length : Int)
      match r2 with
      | [] => some ⟨mant, scale⟩
      | 'e' :: er => parseExpPart mant scale er
      | 'E' :: er => parseExpPart mant scale er
      | _ => none
  | 'e' :: er => if ip = [] then none else parseExpPart (sign * (digitsVal ip : Int)) 0 er
  | 'E' :: er => if ip = [] then none else parseExpPart (sign * (digitsVal ip : Int)) 0 er
  | _ => none

/-- Characters accepted in the local part of an email address by the
model of Django's `EmailValidator` (dot-atom form; the rarely used
quoted-string and a few exotic specials are omitted). -/
def isEmailUserChar (c : Char) : Bool :=
  c.isAlphanum ||
    c ∈ ['.', '_', '%', '+', '-', '!', '#', '$', '&', '*', '/', '=', '?', '^', '~', '|']

/-- Characters allowed inside a domain label: letters, digits, hyphen. -/
def isLabelChar (c : Char) : Bool :=
  c.isAlphanum || c = '-'

/-- Valid non-final domain label for the email domain: nonempty, at most
63 characters, alphanumerics and hyphens, not starting or ending with a
hyphen. -/
def validLabel (l : List Char) : Bool :=
  l ≠ [] && l.length ≤ 63 && l.all isLabelChar &&
    (l.head?.getD '-') ≠ '-' && (l.getLast?.getD '-') ≠ '-'

/-- Valid final domain label: as `validLabel` but at least two
characters long (Django's domain regex ends in a 2..63 character
label). -/
def validLastLabel (l : List Char) : Bool :=
  validLabel l && 2 ≤ l.length

/-- Splitting of a character list at every occurrence of a separator,
keeping empty segments (the semantics of `str.split` with an explicit
separator). -/
def splitOnChar (sep : Char) (cs : List Char) : List (List Char) :=
  cs.foldr
    (fun c acc =>
      match acc with
      | [] => [[c]]
      | hd :: tl => if c = sep then [] :: hd :: tl else (c :: hd) :: tl)
    [[]]

/-- Model of the domain part accepted by Django's `EmailValidator`:
either the allowlisted literal `localhost`, or at least two labels
separated by dots, each label valid and the final one at least two
characters. -/
def validDomain (s : String) : Bool :=
  s = "localhost" ||
    (let labels := splitOnChar '.' s.toList
     2 ≤ labels.length && labels.all validLabel &&
       validLastLabel (labels.getLast?.getD []))

/-- Model of Django's `EmailValidator`: the value splits at its last
`@` into a nonempty local part of allowed characters and a valid
domain. -/
def isValidEmail (s : String) : Bool :=
  let cs := s.toList
  let rev := cs.reverse
  let domRev := rev.takeWhile (fun c => c ≠ '@')
  let restRev := rev.dropWhile (fun c => c ≠ '@')
  match restRev with
  | [] => false
  | _ :: userRev =>
    let user := userRev.reverse
    let dom : String := ⟨domRev.reverse⟩
    user ≠ [] && user.all isEmailUserChar && validDomain dom

/-- Per-field validation failures produced by the model form, mirroring
Django's per-field error messages: missing required value, a value that
does not parse as a whole number or as a float, a malformed email,
a value over a `max_length` bound, and the model form's uniqueness
failure on the primary key (Django: "Orders with this Oid already
exists."). -/
inductive FieldError where
  | required
  | invalidInt
  | invalidFloat
  | invalidEmail
  | maxLength (limit : Nat)
  | duplicateOid
deriving DecidableEq

/-- The persisted `Orders` record of `models.py`: integer primary key
`oid`, `fname`/`lname` as strings of at most 20 characters, `price` as
the exact value of the submitted float literal, `mail` an email string,
`addr` a string of at most 50 characters. -/
structure Orders where
  oid : Int
  fname : String
  lname : String
  price : DecFloat
  mail : String
  addr : String
deriving DecidableEq

/-- Cleaning of the form field generated for `oid = models.IntegerField`:
a missing or empty submitted value is a required-field failure, anything
else must parse as a whole number (whitespace around the number is
tolerated, as by Python `int`). -/
def integerFieldClean : Option String → Except FieldError Int
  | none => .error .required
  | some s =>
    if s = "" then .error .required
    else
      match parseIntStr (pyStrip s) with
      | some n => .ok n
      | none => .error .invalidInt

/-- Cleaning of the form field generated for `price = models.FloatField`:
missing or empty is a required-field failure, anything else must parse
as a float literal. -/
def floatFieldClean : Option String → Except FieldError DecFloat
  | none => .error .required
  | some s =>
    if s = "" then .error .required
    else
      match parseFloatStr (pyStrip s) with
      | some q => .ok q
      | none => .error .invalidFloat

/-- Cleaning of the form fields generated for `models.CharField`:
the value is stripped, a missing or (after stripping) empty value is a
required-field failure, and the stripped value may not exceed the
model's `max_length`. -/
def charFieldClean (maxLen : Nat) : Option String → Except FieldError String
  | none => .error .required
  | some s =>
    let t := pyStrip s
    if t = "" then .error .required
    else if maxLen < t.length then .error (.maxLength maxLen)
    else .ok t

/-- Cleaning of the form field generated for `mail = models.EmailField`:
stripped, required, must satisfy the email validator, and is bounded by
the default `max_length` of 254. -/
def emailFieldClean : Option String → Except FieldError String
  | none => .error .required
  | some s =>
    let t := pyStrip s
    if t = "" then .error .required
    else if isValidEmail t = false then .error .invalidEmail
    else if 254 < t.length then .error (.maxLength 254)
    else .ok t

/-- HTTP request methods. -/
inductive Method where
  | GET
  | POST
  | PUT
  | DELETE
  | PATCH
  | HEAD
  | OPTIONS
deriving DecidableEq

/-- An HTTP request as the views see it: the method and the submitted
form data (`request.POST`), an association list from field name to raw
string value.  A field absent from the list was not submitted. -/
structure Request where
  method : Method
  postData : List (String × String)
deriving DecidableEq

/-- State of the rendered `OrderForm`: `unbound` is `OrderForm()` (the
empty creation form), `bound` is `OrderForm(request.POST)` after a
failed validation, carrying the submitted raw values and the per-field
errors. -/
inductive FormState where
  | unbound
  | bound (data : List (String × String)) (errors : List (String × FieldError))
deriving DecidableEq

/-- Displayed value of a form field: empty on an unbound form, the
submitted raw value (or empty if the field was not submitted) on a
bound form. -/
def FormState.fieldValue : FormState → String → String
  | .unbound, _ => ""
  | .bound data _, name => (List.lookup name data).getD ""

/-- Error messages carried by the form. -/
def FormState.formErrors : FormState → List (String × FieldError)
  | .unbound => []
  | .bound _ errs => errs

/-- A view's HTTP response: rendering the creation-form template with a
form, rendering the listing template with the record sequence, a
redirect to a named route, or an unhandled-exception response produced
by the framework (status 500).  No view of this application ever
produces `serverError`; the constructor exists so that the spec's claim
about unhandled duplicate-key failures can be stated. -/
inductive Response where
  | renderForm (template : String) (form : FormState)
  | renderList (template : String) (obj : List Orders)
  | redirect (urlName : String)
  | serverError
deriving DecidableEq

/-- HTTP status code of a response: `render` answers 200, `redirect`
answers 302, an unhandled exception answers 500. -/
def Response.status : Response → Nat
  | .renderForm _ _ => 200
  | .renderList _ _ => 200
  | .redirect _ => 302
  | .serverError => 500

/-- The record store: the ORM-managed `Orders` table, as the sequence
of persisted records in insertion order. -/
abbrev Store := List Orders

/-- The single error entry produced by the model form's `_post_clean`
uniqueness check on the primary key: present exactly when the submitted
`oid` cleaned successfully and a record with that `oid` is already
persisted (Django runs `validate_unique` on every field that cleaned
without errors). -/
def dupError (store : Store) (roid : Except FieldError Int) : List (String × FieldError) :=
  match roid with
  | .ok o => if store.any (fun r => r.oid == o) then [("oid", .duplicateOid)] else []
  | .error _ => []

/-- Error entries a single field contributes to the form's errors. -/
def errOf {α : Type} (name : String) : Except FieldError α → List (String × FieldError)
  | .error e => [(name, e)]
  | .ok _ => []

/-- Cleaning of the submitted `oid` value. -/
def cleanOid (data : List (String × String)) : Except FieldError Int :=
  integerFieldClean (List.lookup "oid" data)

/-- Cleaning of the submitted `fname` value (`max_length=20`). -/
def cleanFname (data : List (String × String)) : Except FieldError String :=
  charFieldClean 20 (List.lookup "fname" data)

/-- Cleaning of the submitted `lname` value (`max_length=20`). -/
def cleanLname (data : List (String × String)) : Except FieldError String :=
  charFieldClean 20 (List.lookup "lname" data)

/-- Cleaning of the submitted `price` value. -/
def cleanPrice (data : List (String × String)) : Except FieldError DecFloat :=
  floatFieldClean (List.lookup "price" data)

/-- Cleaning of the submitted `mail` value. -/
def cleanMail (data : List (String × String)) : Except FieldError String :=
  emailFieldClean (List.lookup "mail" data)

/-- Cleaning of the submitted `addr` value (`max_length=50`). -/
def cleanAddr (data : List (String × String)) : Except FieldError String :=
  charFieldClean 50 (List.lookup "addr" data)

/-- The complete error mapping of a bound `OrderForm`: each field's
cleaning errors followed by the uniqueness error on `oid`, if any. -/
def fieldErrors (store : Store) (data : List (String × String)) :
    List (String × FieldError) :=
  errOf "oid" (cleanOid data) ++ errOf "fname" (cleanFname data) ++
    errOf "lname" (cleanLname data) ++ errOf "price" (cleanPrice data) ++
    errOf "mail" (cleanMail data) ++ errOf "addr" (cleanAddr data) ++
    dupError store (cleanOid data)

/-- Model of `OrderForm(data).is_valid()` together with the cleaned
record: every field cleans successfully and the model form's uniqueness
check on the primary key passes, in which case the fully-typed record
is available; otherwise the form's error mapping. -/
def parseAndValidate (store : Store) (data : List (String × String)) :
    Except (List (String × FieldError)) Orders :=
  match cleanOid data, cleanFname data, cleanLname data, cleanPrice data,
      cleanMail data, cleanAddr data with
  | .ok o, .ok f, .ok l, .ok p, .ok m, .ok a =>
    if store.any (fun r => r.oid == o) then .error (fieldErrors store data)
    else .ok ⟨o, f, l, p, m, a⟩
  | _, _, _, _, _, _ => .error (fieldErrors store data)

/-- The create-order view `orderFormView` of `views.py`: on `POST`,
bind the form to the submitted data; if it validates, save the record
and redirect to `show_url`; otherwise re-render the creation template
with the bound form.  On any other method, render the creation template
with an unbound form.  Returns the store after the request together
with the response. -/
def orderFormView (store : Store) (req : Request) : Store × Response :=
  match req.method with
  | .POST =>
    match parseAndValidate store req.postData with
    | .ok o => (store ++ [o], .redirect "show_url")
    | .error errs => (store, .renderForm "crudapp/order.html" (.bound req.postData errs))
  | _ => (store, .renderForm "crudapp/order.html" .unbound)

/-- The listing view `showView` of `views.py`: fetch all persisted
records (`Orders.objects.all()`) and render the listing template with
them.  The request, and in particular its method, is never inspected. -/
def showView (store : Store) (_req : Request) : Store × Response :=
  (store, .renderList "crudapp/show.html" store)

/-- The URL table of `urls.py`: path `ofv` (route name `order_url`)
dispatches to `orderFormView`, path `sv` (route name `show_url`)
dispatches to `showView`; any other path is unrouted. -/
def dispatch (store : Store) (path : String) (req : Request) :
    Option (Store × Response) :=
  if path = "ofv" then some (orderFormView store req)
  else if path = "sv" then some (showView store req)
  else none

/-- Path registered for a route name in `urls.py` (`redirect('show_url')`
targets path `sv`, the listing route). -/
def pathOfRouteName (name : String) : Option String :=
  if name = "order_url" then some "ofv"
  else if name = "show_url" then some "sv"
  else none

/-- A complete, valid form submission (values from the form's own
placeholder hints). -/
def demoData : List (String × String) :=
  [("oid", "101"), ("fname", "Prosenjeet"), ("lname", "Shil"),
   ("price", "10000"), ("mail", "abc@xyz.com"), ("addr", "IN")]

/-- A persisted record used in duplicate-key and frame scenarios. -/
def dupRecord : Orders :=
  ⟨101, "Ada", "Lovelace", ⟨5, 0⟩, "ada@calc.org", "London"⟩

/-- A submission whose `oid` collides with `dupRecord` but is otherwise
valid. -/
def dupData : List (String × String) :=
  [("oid", "101"), ("fname", "Bea"), ("lname", "Smith"),
   ("price", "7"), ("mail", "bea@calc.org"), ("addr", "Paris")]

/-- A submission that omits the `mail` field entirely. -/
def noMailData : List (String × String) :=
  [("oid", "102"), ("fname", "Cal"), ("lname", "Ras"),
   ("price", "3"), ("addr", "IN")]

/-- A submission whose `mail` value is not a syntactically valid email. -/
def badMailData : List (String × String) :=
  [("oid", "103"), ("fname", "Dot"), ("lname", "Vim"),
   ("price", "4"), ("mail", "not-an-email"), ("addr", "IN")]

/-- A submission whose `fname` exceeds the 20-character bound. -/
def longFnameData : List (String × String) :=
  [("oid", "104"), ("fname", "Abcdefghijklmnopqrstu"), ("lname", "Vim"),
   ("price", "4"), ("mail", "d@e.fr"), ("addr", "IN")]

/-- Three valid submissions with `oid` 101, 102, 103. -/
def p101 : Request :=
  ⟨.POST, [("oid", "101"), ("fname", "Ann"), ("lname", "Bell"),
    ("price", "10"), ("mail", "ann@bell.com"), ("addr", "IN")]⟩

/-- Second of the three valid submissions. -/
def p102 : Request :=
  ⟨.POST, [("oid", "102"), ("fname", "Bob"), ("lname", "Carr"),
    ("price", "20"), ("mail", "bob@carr.com"), ("addr", "US")]⟩

/-- Third of the three valid submissions. -/
def p103 : Request :=
  ⟨.POST, [("oid", "103"), ("fname", "Cem"), ("lname", "Dag"),
    ("price", "30"), ("mail", "cem@dag.com"), ("addr", "TR")]⟩

/-- The record persisted by `p101`. -/
def r101 : Orders := ⟨101, "Ann", "Bell", ⟨10, 0⟩, "ann@bell.com", "IN"⟩

/-- The record persisted by `p102`. -/
def r102 : Orders := ⟨102, "Bob", "Carr", ⟨20, 0⟩, "bob@carr.com", "US"⟩

/-- The record persisted by `p103`. -/
def r103 : Orders := ⟨103, "Cem", "Dag", ⟨30, 0⟩, "cem@dag.com", "TR"⟩

/-- Validation either fails with exactly the form's error mapping, or
every field cleaned, the uniqueness check passed, and the error mapping
is empty. -/
theorem pav_result (store : Store) (data : List (String × String)) :
    parseAndValidate store data = .error (fieldErrors store data) ∨
      ∃ o f l p m a, cleanOid data = .ok o ∧ cleanFname data = .ok f ∧
        cleanLname data = .ok l ∧ cleanPrice data = .ok p ∧
        cleanMail data = .ok m ∧ cleanAddr data = .ok a ∧
        store.any (fun r => r.oid == o) = false ∧
        fieldErrors store data = [] ∧
        parseAndValidate store data = .ok ⟨o, f, l, p, m, a⟩ := by
  rcases ho : cleanOid data with e1 | o <;>
    rcases hf : cleanFname data with e2 | f <;>
      rcases hl : cleanLname data with e3 | l <;>
        rcases hp : cleanPrice data with e4 | p <;>
          rcases hm : cleanMail data with e5 | m <;>
            rcases ha : cleanAddr data with e6 | a <;>
    try (left; simp [parseAndValidate, ho, hf, hl, hp, hm, ha]; done)
  cases han : store.any (fun r => r.oid == o) with
  | true => left; simp [parseAndValidate, ho, hf, hl, hp, hm, ha, han]
  | false =>
    right
    refine ⟨o, f, l, p, m, a, rfl, rfl, rfl, rfl, rfl, rfl, han, ?_, ?_⟩
    · simp [fieldErrors, errOf, dupError, ho, hf, hl, hp, hm, ha, han]
    · simp [parseAndValidate, ho, hf, hl, hp, hm, ha, han]

/-- If any entry belongs to the form's error mapping, validation fails
with exactly that mapping. -/
theorem pav_error (store : Store) (data : List (String × String))
    (x : String × FieldError) (hx : x ∈ fieldErrors store data) :
    parseAndValidate store data = .error (fieldErrors store data) := by
  rcases pav_result store data with h | ⟨_, _, _, _, _, _, _, _, _, _, _, _, _, hnil, _⟩
  · exact h
  · rw [hnil] at hx
    cases hx

/-- A cleaning failure on `oid` appears in the error mapping. -/
theorem mem_fieldErrors_oid (store : Store) (data : List (String × String))
    (e : FieldError) (h : cleanOid data = .error e) :
    ("oid", e) ∈ fieldErrors store data := by
  simp [fieldErrors, errOf, h]

/-- A cleaning failure on `fname` appears in the error mapping. -/
theorem mem_fieldErrors_fname (store : Store) (data : List (String × String))
    (e : FieldError) (h : cleanFname data = .error e) :
    ("fname", e) ∈ fieldErrors store data := by
  simp [fieldErrors, errOf, h]

/-- A cleaning failure on `lname` appears in the error mapping. -/
theorem mem_fieldErrors_lname (store : Store) (data : List (String × String))
    (e : FieldError) (h : cleanLname data = .error e) :
    ("lname", e) ∈ fieldErrors store data := by
  simp [fieldErrors, errOf, h]

/-- A cleaning failure on `price` appears in the error mapping. -/
theorem mem_fieldErrors_price (store : Store) (data : List (String × String))
    (e : FieldError) (h : cleanPrice data = .error e) :
    ("price", e) ∈ fieldErrors store data := by
  simp [fieldErrors, errOf, h]

/-- A cleaning failure on `mail` appears in the error mapping. -/
theorem mem_fieldErrors_mail (store : Store) (data : List (String × String))
    (e : FieldError) (h : cleanMail data = .error e) :
    ("mail", e) ∈ fieldErrors store data := by
  simp [fieldErrors, errOf, h]

/-- A cleaning failure on `addr` appears in the error mapping. -/
theorem mem_fieldErrors_addr (store : Store) (data : List (String × String))
    (e : FieldError) (h : cleanAddr data = .error e) :
    ("addr", e) ∈ fieldErrors store data := by
  simp [fieldErrors, errOf, h]

/-- On `POST`, a failed validation re-renders the creation template
with the bound form and leaves the store unchanged. -/
theorem orderFormView_post_error (store : Store) (data : List (String × String))
    (errs : List (String × FieldError))
    (h : parseAndValidate store data = .error errs) :
    orderFormView store ⟨.POST, data⟩ =
      (store, .renderForm "crudapp/order.html" (.bound data errs)) := by
  simp [orderFormView, h]

/-- On `POST`, a successful validation persists the record and
redirects to the listing route's name. -/
theorem orderFormView_post_ok (store : Store) (data : List (String × String))
    (o : Orders) (h : parseAndValidate store data = .ok o) :
    orderFormView store ⟨.POST, data⟩ = (store ++ [o], .redirect "show_url") := by
  simp [orderFormView, h]

/-- A stripped value longer than the bound fails the char-field
cleaning with a max-length error. -/
theorem charFieldClean_overlong (maxLen : Nat) (s : String)
    (hlen : maxLen < (pyStrip s).length) :
    charFieldClean maxLen (some s) = .error (.maxLength maxLen) := by
  have hne : pyStrip s ≠ "" := by
    intro h0
    rw [h0] at hlen
    simp at hlen
  simp [charFieldClean, hne, hlen]

/-- C1: for every submission to the create-order handler in which all
six fields clean successfully and the submitted `oid` is not already
present in the store, the handler persists exactly the cleaned record
and answers a redirect to the listing route (`show_url`, path `sv`). -/
theorem create_valid_fresh_persists_and_redirects
    (store : Store) (data : List (String × String))
    (o : Int) (f l : String) (p : DecFloat) (m a : String)
    (ho : cleanOid data = .ok o) (hf : cleanFname data = .ok f)
    (hl : cleanLname data = .ok l) (hp : cleanPrice data = .ok p)
    (hm : cleanMail data = .ok m) (ha : cleanAddr data = .ok a)
    (hfresh : store.any (fun r => r.oid == o) = false) :
    orderFormView store ⟨.POST, data⟩ =
      (store ++ [⟨o, f, l, p, m, a⟩], .redirect "show_url") ∧
    pathOfRouteName "show_url" = some "sv" := by
  constructor
  · have hpav : parseAndValidate store data = .ok ⟨o, f, l, p, m, a⟩ := by
      simp [parseAndValidate, ho, hf, hl, hp, hm, ha, hfresh]
    exact orderFormView_post_ok store data _ hpav
  · rfl

/-- C1 witness: the demo submission on an empty store. -/
theorem create_valid_fresh_persists_and_redirects_witness :
    (cleanOid demoData = .ok 101 ∧ cleanFname demoData = .ok "Prosenjeet" ∧
      cleanLname demoData = .ok "Shil" ∧ cleanPrice demoData = .ok ⟨10000, 0⟩ ∧
      cleanMail demoData = .ok "abc@xyz.com" ∧ cleanAddr demoData = .ok "IN" ∧
      ([] : Store).any (fun r => r.oid == 101) = false) ∧
    (orderFormView [] ⟨.POST, demoData⟩ =
      ([⟨101, "Prosenjeet", "Shil", ⟨10000, 0⟩, "abc@xyz.com", "IN"⟩],
        .redirect "show_url") ∧
    pathOfRouteName "show_url" = some "sv") :=
  ⟨⟨rfl, rfl, rfl, rfl, rfl, rfl, rfl⟩,
    create_valid_fresh_persists_and_redirects [] demoData
      101 "Prosenjeet" "Shil" ⟨10000, 0⟩ "abc@xyz.com" "IN"
      rfl rfl rfl rfl rfl rfl rfl⟩

/-- C2 counterexample: submitting `dupData`, whose `oid` 101 collides
with the persisted `dupRecord`, does not produce a framework-level
error response: the model form's uniqueness check catches the duplicate
during validation, so the handler re-renders the form with an inline
`oid` error, persists nothing, and answers 200, not 500. -/
theorem duplicate_oid_no_framework_error :
    orderFormView [dupRecord] ⟨.POST, dupData⟩ =
      ([dupRecord], .renderForm "crudapp/order.html"
        (.bound dupData [("oid", .duplicateOid)])) ∧
    (orderFormView [dupRecord] ⟨.POST, dupData⟩).2 ≠ Response.serverError ∧
    (orderFormView [dupRecord] ⟨.POST, dupData⟩).2.status = 200 ∧
    (orderFormView [dupRecord] ⟨.POST, dupData⟩).2.status ≠ 500 := by
  refine ⟨rfl, ?_, rfl, ?_⟩ <;> decide

/-- C2 amended: for every submission whose cleaned `oid` equals the
`oid` of an already-persisted record, the model form's uniqueness check
fails validation, so the handler re-renders the form with an inline
`oid` uniqueness error, leaves the store unchanged, and answers 200;
no unhandled framework-level error occurs. -/
theorem duplicate_oid_inline_validation_error
    (store : Store) (data : List (String × String)) (o : Int)
    (ho : cleanOid data = .ok o)
    (hdup : store.any (fun r => r.oid == o) = true) :
    (orderFormView store ⟨.POST, data⟩).1 = store ∧
    (∃ errs, (orderFormView store ⟨.POST, data⟩).2 =
        .renderForm "crudapp/order.html" (.bound data errs) ∧
      ("oid", FieldError.duplicateOid) ∈ errs) ∧
    (orderFormView store ⟨.POST, data⟩).2.status = 200 ∧
    (orderFormView store ⟨.POST, data⟩).2 ≠ Response.serverError := by
  have hmem : ("oid", FieldError.duplicateOid) ∈ fieldErrors store data := by
    simp [fieldErrors, dupError, ho, hdup]
  have hpav := pav_error store data _ hmem
  have hview := orderFormView_post_error store data _ hpav
  rw [hview]
  exact ⟨rfl, ⟨fieldErrors store data, rfl, hmem⟩, rfl, by intro h; cases h⟩

/-- C2 amended witness: the duplicate submission against the store
holding `dupRecord`. -/
theorem duplicate_oid_inline_validation_error_witness :
    (cleanOid dupData = .ok 101 ∧
      [dupRecord].any (fun r => r.oid == 101) = true) ∧
    ((orderFormView [dupRecord] ⟨.POST, dupData⟩).1 = [dupRecord] ∧
      (∃ errs, (orderFormView [dupRecord] ⟨.POST, dupData⟩).2 =
          .renderForm "crudapp/order.html" (.bound dupData errs) ∧
        ("oid", FieldError.duplicateOid) ∈ errs) ∧
      (orderFormView [dupRecord] ⟨.POST, dupData⟩).2.status = 200 ∧
      (orderFormView [dupRecord] ⟨.POST, dupData⟩).2 ≠ Response.serverError) :=
  ⟨⟨rfl, rfl⟩,
    duplicate_oid_inline_validation_error [dupRecord] dupData 101 rfl rfl⟩

/-- C3: for every submission with no `mail` value, the handler
re-renders the form with a required-field error for `mail`, leaves the
store unchanged, and answers the same status as the initial `GET`. -/
theorem missing_mail_rerenders_with_required_error
    (store : Store) (data : List (String × String))
    (hmiss : List.lookup "mail" data = none) :
    (orderFormView store ⟨.POST, data⟩).1 = store ∧
    (∃ errs, (orderFormView store ⟨.POST, data⟩).2 =
        .renderForm "crudapp/order.html" (.bound data errs) ∧
      ("mail", FieldError.required) ∈ errs) ∧
    (orderFormView store ⟨.POST, data⟩).2.status =
      (orderFormView store ⟨.GET, data⟩).2.status := by
  have hc : cleanMail data = .error .required := by
    simp [cleanMail, hmiss, emailFieldClean]
  have hmem := mem_fieldErrors_mail store data _ hc
  have hpav := pav_error store data _ hmem
  have hview := orderFormView_post_error store data _ hpav
  rw [hview]
  exact ⟨rfl, ⟨fieldErrors store data, rfl, hmem⟩, rfl⟩

/-- C3 witness: the submission omitting `mail` on a store holding
`dupRecord`. -/
theorem missing_mail_rerenders_with_required_error_witness :
    List.lookup "mail" noMailData = none ∧
    ((orderFormView [dupRecord] ⟨.POST, noMailData⟩).1 = [dupRecord] ∧
      (∃ errs, (orderFormView [dupRecord] ⟨.POST, noMailData⟩).2 =
          .renderForm "crudapp/order.html" (.bound noMailData errs) ∧
        ("mail", FieldError.required) ∈ errs) ∧
      (orderFormView [dupRecord] ⟨.POST, noMailData⟩).2.status =
        (orderFormView [dupRecord] ⟨.GET, noMailData⟩).2.status) :=
  ⟨rfl, missing_mail_rerenders_with_required_error [dupRecord] noMailData rfl⟩

/-- C4: for every submission carrying a `mail` value that is nonempty
after stripping but not a syntactically valid email address, the
handler reports a format-validation error for `mail` and persists
nothing. -/
theorem invalid_mail_format_error
    (store : Store) (data : List (String × String)) (s : String)
    (hm : List.lookup "mail" data = some s)
    (hne : pyStrip s ≠ "")
    (hbad : isValidEmail (pyStrip s) = false) :
    (orderFormView store ⟨.POST, data⟩).1 = store ∧
    ∃ errs, (orderFormView store ⟨.POST, data⟩).2 =
        .renderForm "crudapp/order.html" (.bound data errs) ∧
      ("mail", FieldError.invalidEmail) ∈ errs := by
  have hc : cleanMail data = .error .invalidEmail := by
    simp [cleanMail, hm, emailFieldClean, hne, hbad]
  have hmem := mem_fieldErrors_mail store data _ hc
  have hpav := pav_error store data _ hmem
  have hview := orderFormView_post_error store data _ hpav
  rw [hview]
  exact ⟨rfl, fieldErrors store data, rfl, hmem⟩

/-- C4 witness: the submission with `mail = "not-an-email"`. -/
theorem invalid_mail_format_error_witness :
    (List.lookup "mail" badMailData = some "not-an-email" ∧
      pyStrip "not-an-email" ≠ "" ∧
      isValidEmail (pyStrip "not-an-email") = false) ∧
    ((orderFormView [] ⟨.POST, badMailData⟩).1 = [] ∧
      ∃ errs, (orderFormView [] ⟨.POST, badMailData⟩).2 =
          .renderForm "crudapp/order.html" (.bound badMailData errs) ∧
        ("mail", FieldError.invalidEmail) ∈ errs) :=
  ⟨⟨rfl, by decide, rfl⟩,
    invalid_mail_format_error [] badMailData "not-an-email" rfl (by decide) rfl⟩

/-- C5: for every store state, the list handler returns exactly the
persisted records and no others; in particular, after the three valid
submissions with `oid` 101, 102, 103 on an empty store, the listing is
exactly those three records. -/
theorem listing_returns_exactly_store :
    (∀ (store : Store) (req : Request),
      showView store req = (store, .renderList "crudapp/show.html" store)) ∧
    (showView
        (orderFormView (orderFormView (orderFormView [] p101).1 p102).1 p103).1
        ⟨.GET, []⟩).2 =
      .renderList "crudapp/show.html" [r101, r102, r103] :=
  ⟨fun _ _ => rfl, rfl⟩

/-- C6: for every submission whose stripped `fname` or `lname` exceeds
20 characters or whose stripped `addr` exceeds 50 characters, the
handler re-renders the form with the corresponding max-length field
error and persists nothing. -/
theorem overlong_field_rerenders_without_persisting
    (store : Store) (data : List (String × String))
    (h : (∃ s, List.lookup "fname" data = some s ∧ 20 < (pyStrip s).length) ∨
         (∃ s, List.lookup "lname" data = some s ∧ 20 < (pyStrip s).length) ∨
         (∃ s, List.lookup "addr" data = some s ∧ 50 < (pyStrip s).length)) :
    (orderFormView store ⟨.POST, data⟩).1 = store ∧
    ∃ errs, (orderFormView store ⟨.POST, data⟩).2 =
        .renderForm "crudapp/order.html" (.bound data errs) ∧
      (("fname", FieldError.maxLength 20) ∈ errs ∨
       ("lname", FieldError.maxLength 20) ∈ errs ∨
       ("addr", FieldError.maxLength 50) ∈ errs) := by
  have hmem : ("fname", FieldError.maxLength 20) ∈ fieldErrors store data ∨
      ("lname", FieldError.maxLength 20) ∈ fieldErrors store data ∨
      ("addr", FieldError.maxLength 50) ∈ fieldErrors store data := by
    rcases h with ⟨s, hs, hlen⟩ | ⟨s, hs, hlen⟩ | ⟨s, hs, hlen⟩
    · exact Or.inl (mem_fieldErrors_fname store data _ (by
        simp [cleanFname, hs, charFieldClean_overlong 20 s hlen]))
    · exact Or.inr (Or.inl (mem_fieldErrors_lname store data _ (by
        simp [cleanLname, hs, charFieldClean_overlong 20 s hlen])))
    · exact Or.inr (Or.inr (mem_fieldErrors_addr store data _ (by
        simp [cleanAddr, hs, charFieldClean_overlong 50 s hlen])))
  have hpav : parseAndValidate store data = .error (fieldErrors store data) := by
    rcases hmem with hm | hm | hm <;> exact pav_error store data _ hm
  have hview := orderFormView_post_error store data _ hpav
  rw [hview]
  exact ⟨rfl, fieldErrors store data, rfl, hmem⟩

/-- C6 witness: a submission whose `fname` has 21 characters. -/
theorem overlong_field_rerenders_without_persisting_witness :
    ((∃ s, List.lookup "fname" longFnameData = some s ∧ 20 < (pyStrip s).length) ∨
      (∃ s, List.lookup "lname" longFnameData = some s ∧ 20 < (pyStrip s).length) ∨
      (∃ s, List.lookup "addr" longFnameData = some s ∧ 50 < (pyStrip s).length)) ∧
    ((orderFormView [] ⟨.POST, longFnameData⟩).1 = [] ∧
      ∃ errs, (orderFormView [] ⟨.POST, longFnameData⟩).2 =
          .renderForm "crudapp/order.html" (.bound longFnameData errs) ∧
        (("fname", FieldError.maxLength 20) ∈ errs ∨
         ("lname", FieldError.maxLength 20) ∈ errs ∨
         ("addr", FieldError.maxLength 50) ∈ errs)) :=
  ⟨Or.inl ⟨"Abcdefghijklmnopqrstu", rfl, by decide⟩,
    overlong_field_rerenders_without_persisting [] longFnameData
      (Or.inl ⟨"Abcdefghijklmnopqrstu", rfl, by decide⟩)⟩

/-- C7: every `GET` request to the creation route renders the creation
template with an unbound form whose six fields are all empty and which
carries no error messages, with status 200. -/
theorem get_renders_empty_unbound_form
    (store : Store) (data : List (String × String)) :
    orderFormView store ⟨.GET, data⟩ =
      (store, .renderForm "crudapp/order.html" .unbound) ∧
    dispatch store "ofv" ⟨.GET, data⟩ = some (orderFormView store ⟨.GET, data⟩) ∧
    (orderFormView store ⟨.GET, data⟩).2.status = 200 ∧
    (∀ name, FormState.unbound.fieldValue name = "") ∧
    FormState.unbound.formErrors = [] :=
  ⟨rfl, rfl, rfl, fun _ => rfl, rfl⟩

/-- C8: no routed request ever updates or deletes a persisted record:
every record present before the request is present unchanged after it,
and the store either stays the same or grows by exactly one newly
created record at the end. -/
theorem no_update_or_delete
    (store : Store) (path : String) (req : Request) (out : Store × Response)
    (h : dispatch store path req = some out) :
    (∀ r ∈ store, r ∈ out.1) ∧
    (out.1 = store ∨ ∃ o, out.1 = store ++ [o]) := by
  unfold dispatch at h
  split at h
  · -- the creation route
    obtain rfl := Option.some.inj h
    obtain ⟨mth, data⟩ := req
    cases mth
    case POST =>
      cases hpav : parseAndValidate store data with
      | ok o =>
        rw [orderFormView_post_ok store data o hpav]
        exact ⟨fun r hr => List.mem_append_left _ hr, Or.inr ⟨o, rfl⟩⟩
      | error errs =>
        rw [orderFormView_post_error store data errs hpav]
        exact ⟨fun r hr => hr, Or.inl rfl⟩
    all_goals exact ⟨fun r hr => hr, Or.inl rfl⟩
  · split at h
    · -- the listing route
      obtain rfl := Option.some.inj h
      exact ⟨fun r hr => hr, Or.inl rfl⟩
    · cases h

/-- C8 witness: a listing request on a one-record store. -/
theorem no_update_or_delete_witness :
    dispatch [r101] "sv" ⟨.GET, []⟩ =
      some ([r101], .renderList "crudapp/show.html" [r101]) ∧
    ((∀ r ∈ [r101], r ∈ ([r101] : Store)) ∧
      (([r101] : Store) = [r101] ∨ ∃ o, ([r101] : Store) = [r101] ++ [o])) :=
  ⟨rfl, no_update_or_delete [r101] "sv" ⟨.GET, []⟩
    ([r101], .renderList "crudapp/show.html" [r101]) rfl⟩

/-- C9: every one of the six fields is required: a submission omitting
any of them fails validation with a required-field error for that
field, re-renders the form, and persists nothing. -/
theorem all_fields_required
    (store : Store) (data : List (String × String)) (name : String)
    (hname : name ∈ ["oid", "fname", "lname", "price", "mail", "addr"])
    (hmiss : List.lookup name data = none) :
    (orderFormView store ⟨.POST, data⟩).1 = store ∧
    ∃ errs, (orderFormView store ⟨.POST, data⟩).2 =
        .renderForm "crudapp/order.html" (.bound data errs) ∧
      (name, FieldError.required) ∈ errs := by
  fin_cases hname
  · have hmem := mem_fieldErrors_oid store data FieldError.required
      (by simp [cleanOid, hmiss, integerFieldClean])
    have hview := orderFormView_post_error store data _ (pav_error store data _ hmem)
    rw [hview]
    exact ⟨rfl, fieldErrors store data, rfl, hmem⟩
  · have hmem := mem_fieldErrors_fname store data FieldError.required
      (by simp [cleanFname, hmiss, charFieldClean])
    have hview := orderFormView_post_error store data _ (pav_error store data _ hmem)
    rw [hview]
    exact ⟨rfl, fieldErrors store data, rfl, hmem⟩
  · have hmem := mem_fieldErrors_lname store data FieldError.required
      (by simp [cleanLname, hmiss, charFieldClean])
    have hview := orderFormView_post_error store data _ (pav_error store data _ hmem)
    rw [hview]
    exact ⟨rfl, fieldErrors store data, rfl, hmem⟩
  · have hmem := mem_fieldErrors_price store data FieldError.required
      (by simp [cleanPrice, hmiss, floatFieldClean])
    have hview := orderFormView_post_error store data _ (pav_error store data _ hmem)
    rw [hview]
    exact ⟨rfl, fieldErrors store data, rfl, hmem⟩
  · have hmem := mem_fieldErrors_mail store data FieldError.required
      (by simp [cleanMail, hmiss, emailFieldClean])
    have hview := orderFormView_post_error store data _ (pav_error store data _ hmem)
    rw [hview]
    exact ⟨rfl, fieldErrors store data, rfl, hmem⟩
  · have hmem := mem_fieldErrors_addr store data FieldError.required
      (by simp [cleanAddr, hmiss, charFieldClean])
    have hview := orderFormView_post_error store data _ (pav_error store data _ hmem)
    rw [hview]
    exact ⟨rfl, fieldErrors store data, rfl, hmem⟩

/-- C9 witness: an empty submission is missing `price`. -/
theorem all_fields_required_witness :
    ("price" ∈ ["oid", "fname", "lname", "price", "mail", "addr"] ∧
      List.lookup "price" ([] : List (String × String)) = none) ∧
    ((orderFormView [] ⟨.POST, []⟩).1 = [] ∧
      ∃ errs, (orderFormView [] ⟨.POST, []⟩).2 =
          .renderForm "crudapp/order.html" (.bound [] errs) ∧
        ("price", FieldError.required) ∈ errs) :=
  ⟨⟨by decide, rfl⟩, all_fields_required [] [] "price" (by decide) rfl⟩

/-- C10: the listing path is not restricted to `GET`: every method
dispatches to the same handler, which never inspects the request and
always answers the same 200 listing of all records. -/
theorem listing_ignores_method (store : Store) :
    (∀ (m : Method) (data : List (String × String)),
      dispatch store "sv" ⟨m, data⟩ = some (showView store ⟨m, data⟩)) ∧
    (∀ (req req2 : Request), showView store req = showView store req2) ∧
    (∀ req : Request, showView store req =
        (store, .renderList "crudapp/show.html" store) ∧
      (showView store req).2.status = 200) :=
  ⟨fun _ _ => rfl, fun _ _ => rfl, fun _ => ⟨rfl, rfl⟩⟩
